import Mathlib

/-!
Verification development for the frame-inspection overlay engine of the
ps-analysis-tool content script.

Two source files carry the behavior under study:

* `WebpageContentScript` — the frame-inspection controller class: session
  handling, popover insertion, the hover state machine, and the
  scroll-listener registry.
* `setTooltipPosition` — the pure tooltip placement engine.

The DOM surface they touch (tooltip style/class mutation, popover nodes in
the document, listeners on `document`/`window`, messages posted on the
session port) is embedded as explicit state; geometry and visibility
queries are inputs supplied by an environment record.  The helper modules
`popovers` and `utils` of the content script are not among the provided
sources; the definitions standing in for them are each marked
`Modelled from the spec:` and follow §4.2 / the Popover Factory
description of the specification.
-/

namespace PSAT

/-! ## Tooltip placement engine (`setTooltipPosition`) -/

/-- Result of `getBoundingClientRect` restricted to the fields the
placement engine destructures (`x`, `y`, `width`), viewport-relative. -/
structure TRect where
  x : Int
  y : Int
  width : Int
deriving Repr, DecidableEq

/-- The frame element as the placement engine sees it: its bounding
rectangle and its `offsetHeight` (used by the below-the-frame branches). -/
structure FrameEl where
  rect : TRect
  offsetHeight : Int
deriving Repr, DecidableEq

/-- A CSS length value as assigned by the placement engine: a pixel
value, `auto`, or `unset`. -/
inductive StyleVal where
  | px (v : Int)
  | auto
  | unset
deriving Repr, DecidableEq

/-- The tooltip element: its layout dimensions (`offsetWidth`,
`offsetHeight`), its own class list, the class list of its first element
child (where the notch classes live), and the inline style fields the
engine writes. -/
structure TooltipEl where
  offsetWidth : Int
  offsetHeight : Int
  classes : List String
  notch : List String
  top : StyleVal
  left : StyleVal
  right : StyleVal
  maxWidth : StyleVal
deriving Repr, DecidableEq

/-- Window state read by the placement engine: scroll offsets and
viewport dimensions. -/
structure WinEnv where
  scrollX : Int
  scrollY : Int
  innerWidth : Int
  innerHeight : Int
deriving Repr, DecidableEq

/-- Models `classList.add`: appends the class unless it is already present. -/
def classListAdd (cs : List String) (c : String) : List String :=
  if c ∈ cs then cs else cs ++ [c]

/-- The four notch classes, in the order the source lists them in its
`classList.remove` calls. -/
def notchClassNames : List String :=
  ["ps-tooltip-top-right-notch", "ps-tooltip-top-left-notch",
   "ps-tooltip-bottom-left-notch", "ps-tooltip-bottom-right-notch"]

/-- Whether a class is one of the four notch classes. -/
def isNotchClass (c : String) : Bool := notchClassNames.contains c

/-- Models `classList.remove` of all four notch classes. -/
def clearNotchClasses (cs : List String) : List String :=
  cs.filter (fun c => !(isNotchClass c))

/-- The notch classes currently present on the notch element. -/
def activeNotches (cs : List String) : List String :=
  cs.filter isNotchClass

/-- Translation of `setTooltipPosition` from the placement-engine source,
branch for branch.  `docOrigin` is `document.location.origin`;
`selectedFrame` is the optional selected-frame origin.  A `none` tooltip
returns `none` immediately (the source's early `return`); a `none` frame
yields the sentinel rectangle `x = -1, y = -1, width = -1`. -/
def setTooltipPosition (w : WinEnv) (docOrigin : String)
    (tooltip : Option TooltipEl) (frame : Option FrameEl)
    (isHiddenFrame : Bool) (selectedFrame : Option String) :
    Option TooltipEl :=
  match tooltip with
  | none => none
  | some tip0 =>
    let frameX : Int := match frame with | some f => f.rect.x | none => -1
    let frameY : Int := match frame with | some f => f.rect.y | none => -1
    let frameWidth : Int := match frame with | some f => f.rect.width | none => -1
    let tip : TooltipEl :=
      { tip0 with
        maxWidth := .px (frameWidth - 40)
        top := .px (frameY + w.scrollY)
        left := .px (frameX + w.scrollX) }
    match frame with
    | none =>
      some { tip with
        classes := classListAdd tip.classes "ps-fixed"
        top := .px 0
        left := .auto
        right := .px 30
        notch := classListAdd tip.notch "ps-tooltip-top-left-notch" }
    | some f =>
      if isHiddenFrame then
        some { tip with
          classes := classListAdd tip.classes "ps-fixed"
          top := .px 0
          left := .auto
          right := .px 30
          notch := classListAdd tip.notch "ps-tooltip-top-left-notch" }
      else if selectedFrame = some docOrigin then
        some { tip with
          top := .px 5
          classes := classListAdd tip.classes "ps-fixed"
          notch := classListAdd tip.notch "ps-tooltip-top-left-notch" }
      else if frameY > tip.offsetHeight ∧ frameY - tip.offsetHeight ≥ 1 then
        if frameX + tip.offsetWidth > w.innerWidth ∧ frameX - tip.offsetWidth > 0 then
          some { tip with
            left := .px (frameX - tip.offsetWidth)
            top := .px (frameY - tip.offsetHeight + w.scrollY)
            notch := classListAdd (clearNotchClasses tip.notch)
              "ps-tooltip-bottom-right-notch" }
        else if frameX + tip.offsetWidth < w.innerWidth ∧ frameX - tip.offsetWidth < 0 then
          some { tip with
            left := .px (frameX + w.scrollX)
            right := .unset
            top := .px (frameY - tip.offsetHeight + w.scrollY)
            notch := classListAdd (clearNotchClasses tip.notch)
              "ps-tooltip-bottom-left-notch" }
        else
          let leftOverWidth := tip.offsetWidth - (w.innerWidth - frameX)
          some { tip with
            left := if frameX < 0 then .px 0 else .px (frameX + w.scrollX)
            maxWidth := .px (frameWidth - leftOverWidth)
            top := .px (frameY - tip.offsetHeight + w.scrollY)
            notch := classListAdd (clearNotchClasses tip.notch)
              "ps-tooltip-bottom-left-notch" }
      else if frameY + tip.offsetHeight < w.innerHeight then
        if frameX + frameWidth - w.innerWidth > 0 ∧ frameX + tip.offsetWidth > w.innerWidth then
          some { tip with
            left := .unset
            right := .px (frameX + frameWidth)
            top := .px (frameY + f.offsetHeight + w.scrollY)
            notch := classListAdd (clearNotchClasses tip.notch)
              "ps-tooltip-top-right-notch" }
        else if frameX + frameWidth - w.innerWidth < 0 ∧ frameX + tip.offsetWidth < w.innerWidth then
          some { tip with
            left := .px (frameX + w.scrollX)
            right := .unset
            top := .px (frameY + f.offsetHeight + w.scrollY)
            notch := classListAdd (clearNotchClasses tip.notch)
              "ps-tooltip-top-left-notch" }
        else
          let leftOverWidth := tip.offsetWidth - (w.innerWidth - frameX)
          some { tip with
            left := if frameX < 0 then .px 0 else .px (frameX + w.scrollX)
            maxWidth := .px (frameWidth - leftOverWidth)
            top := .px (frameY + f.offsetHeight + w.scrollY)
            notch := classListAdd (clearNotchClasses tip.notch)
              "ps-tooltip-top-left-notch" }
      else
        some { tip with top := .px frameY }

/-! ## Frame inspection controller (`WebpageContentScript`) -/

/-- A frame element as the controller's environment supplies it:
its resolved origin (used by frame discovery), its raw `src` attribute,
its `clientWidth`, and the results of the two visibility queries the
controller performs on it (`isElementVisibleInViewport(frame, true)` and
the one-argument `isElementVisibleInViewport(frame)`). -/
structure FrameInfo where
  origin : String
  srcAttr : Option String
  clientWidth : Int
  visTrue : Bool
  visDefault : Bool
deriving Repr, DecidableEq

/-- The hosting page's DOM as the controller reads it: the frame
elements (identified by their index) and the platform URL parser
(`new URL`), returning the parsed origin on success and `none` when the
constructor would throw. -/
structure Env where
  frames : List FrameInfo
  urlOrigin : String → Option String

/-- Frame lookup by identity. -/
def frameOf (env : Env) (i : Nat) : Option FrameInfo := env.frames.get? i

/-- Resolved origin of a frame (discovery key). -/
def originOf (env : Env) (i : Nat) : String :=
  match frameOf env i with
  | some f => f.origin
  | none => ""

/-- Result of `isElementVisibleInViewport(frame, true)` for a frame id. -/
def visTrueOf (env : Env) (i : Nat) : Bool :=
  match frameOf env i with
  | some f => f.visTrue
  | none => false

/-- One-argument `isElementVisibleInViewport(frame)` for a frame id. -/
def visDefaultOf (env : Env) (i : Nat) : Bool :=
  match frameOf env i with
  | some f => f.visDefault
  | none => false

/-- The `clientWidth` of a frame id. -/
def clientWidthOf (env : Env) (i : Nat) : Int :=
  match frameOf env i with
  | some f => f.clientWidth
  | none => 0

/-- Modelled from the spec: `isFrameHidden` lives in the content
script's `utils` module, which is not among the provided sources.
§4.2: a frame is hidden iff it fails the visibility test and its
rendered width is zero. -/
def isFrameHidden (f : FrameInfo) : Bool :=
  !f.visTrue && f.clientWidth == 0

/-- Applies `isFrameHidden` by frame id. -/
def hiddenOf (env : Env) (i : Nat) : Bool :=
  match frameOf env i with
  | some f => isFrameHidden f
  | none => false

/-- The record `getFrameCount` returns. -/
structure FrameCount where
  numberOfFrames : Nat
  numberOfVisibleFrames : Nat
  numberOfHiddenFrames : Nat
deriving Repr, DecidableEq

/-- Modelled from the spec: `getFrameCount` lives in the `utils` module,
not among the provided sources.  §4.2: it applies the visibility test to
each candidate and counts total, visible, and hidden frames. -/
def getFrameCount (env : Env) (ids : List Nat) : FrameCount :=
  { numberOfFrames := ids.length
    numberOfVisibleFrames := (ids.filter (fun i => visTrueOf env i)).length
    numberOfHiddenFrames := (ids.filter (fun i => hiddenOf env i)).length }

/-- Modelled from the spec: `findSelectedFrameElements` lives in the
`popovers` module, not among the provided sources.  §4.1 step 3: locate
all frame elements whose resolved origin matches the target, document
order preserved. -/
def findSelectedFrameElements (env : Env) (sel : String) : List Nat :=
  (List.range env.frames.length).filter (fun i => originOf env i == sel)

/-- A popover DOM node currently in the document: an overlay over a
frame, or a tooltip anchored to an (optional) frame carrying the
visible/hidden counts it displays. -/
inductive Popover where
  | overlay (frame : Nat)
  | tooltip (frame : Option Nat) (numberOfVisibleFrames numberOfHiddenFrames : Nat)
deriving Repr, DecidableEq

/-- The five (event, bound-handler) pairs the controller installs on
`document`/`documentElement`. -/
inductive DocListener where
  | mouseoverHover
  | mouseoutHover
  | visibilityMove
  | mouseleaveMove
  | mouseenterMove
deriving Repr, DecidableEq

/-- All five controller listeners, in installation order. -/
def allDocListeners : List DocListener :=
  [.mouseoverHover, .mouseoutHover, .visibilityMove, .mouseleaveMove, .mouseenterMove]

/-- An outbound message posted on the session port. -/
structure OutMsg where
  iframeOrigin : String
  isNullSetFromHover : Option Bool
deriving Repr, DecidableEq

/-- Externally visible effects recorded during a run: a frame-discovery
pass for a target origin, and a `scrollIntoView` auto-scroll. -/
inductive Eff where
  | discovery (selectedFrame : String)
  | autoScroll
deriving Repr, DecidableEq

/-- The whole mutable state: the `WebpageContentScript` fields plus the
DOM/session state it mutates (popover nodes, window scroll listeners,
document listeners, frame-highlighting mode, the message trace, and the
effect trace).  Scroll callbacks are identified by ids drawn from
`nextCallbackId`, preserving closure identity across add/remove. -/
structure SState where
  port : Bool
  isInspecting : Bool
  isHoveringOverPage : Bool
  bodyHoverStateSent : Bool
  scrollEventListeners : List Nat
  hoveredFrame : Option Nat
  popovers : List Popover
  winScrollListeners : List Nat
  docListeners : List DocListener
  frameHighlighting : Bool
  nextCallbackId : Nat
  sent : List OutMsg
  effects : List Eff
deriving Repr, DecidableEq

/-- An inbound `ResponseType` message from the panel. -/
structure ResponseType where
  isInspecting : Bool
  selectedFrame : Option String
  removeAllFramePopovers : Bool
deriving Repr, DecidableEq

/-- JavaScript falsiness of an optional string (`undefined` or `''`). -/
def strFalsy : Option String → Bool
  | none => true
  | some s => s == ""

/-- Modelled from the spec: the module-level `removeAllPopovers` of the
`popovers` module is not among the provided sources.  Per the Popover
Factory description it destroys the overlay and tooltip DOM nodes; it has
no access to the controller instance, so it cannot touch the controller's
scroll-listener registry or the window listeners the registry tracks. -/
def removeAllPopoversModule (s : SState) : SState :=
  { s with popovers := [] }

/-- Modelled from the spec: `addOverlay` of the `popovers` module creates
an overlay node over the frame. -/
def addOverlayModule (s : SState) (frame : Nat) : SState :=
  { s with popovers := s.popovers ++ [.overlay frame] }

/-- Modelled from the spec: `addTooltip` of the `popovers` module creates
a tooltip node anchored at the (optional) frame. -/
def addTooltipModule (s : SState) (frame : Option Nat) (vis hid : Nat) : SState :=
  { s with popovers := s.popovers ++ [.tooltip frame vis hid] }

/-- Modelled from the spec: `toggleFrameHighlighting` of the `popovers`
module switches frame-highlighting mode. -/
def toggleFrameHighlighting (s : SState) (b : Bool) : SState :=
  { s with frameHighlighting := b }

/-- Method `addEventListerOnScroll` [sic]: records the callback in the registry,
invokes it once (a position update, outside this state), and attaches it
to the window scroll event.  The fresh callback id models the new closure
allocated at each call site. -/
def addEventListerOnScroll (s : SState) : SState :=
  { s with
    scrollEventListeners := s.scrollEventListeners ++ [s.nextCallbackId]
    winScrollListeners := s.winScrollListeners ++ [s.nextCallbackId]
    nextCallbackId := s.nextCallbackId + 1 }

/-- Method `insertOverlay`: `addOverlay` plus a scroll-tracked reposition
callback. -/
def insertOverlay (s : SState) (frame : Nat) : SState :=
  addEventListerOnScroll (addOverlayModule s frame)

/-- Method `insertTooltip`: `addTooltip`, an initial `setTooltipPosition` call
(a style update, outside this state), and a scroll-tracked reposition
callback; returns the created tooltip. -/
def insertTooltip (s : SState) (frame : Option Nat) (vis hid : Nat) :
    SState × Popover :=
  (addEventListerOnScroll (addTooltipModule s frame vis hid), .tooltip frame vis hid)

/-- The class method `removeAllPopovers` (`this.removeAllPopovers()`):
detaches every registered scroll callback from the window, empties the
registry, then calls the module-level `removeAllPopovers`. -/
def removeAllPopoversThis (s : SState) : SState :=
  let s1 :=
    if s.scrollEventListeners.length = 0 then s
    else
      { s with
        winScrollListeners :=
          s.winScrollListeners.filter (fun i => !(s.scrollEventListeners.contains i))
        scrollEventListeners := [] }
  removeAllPopoversModule s1

/-- Method `addEventListeners`: installs the five hover/visibility listeners.
DOM semantics make re-adding an already-registered (event, handler) pair
a no-op. -/
def addEventListeners (s : SState) : SState :=
  let addOne := fun (ls : List DocListener) (l : DocListener) =>
    if ls.contains l then ls else ls ++ [l]
  { s with docListeners := allDocListeners.foldl addOne s.docListeners }

/-- Method `removeEventListeners`: removes the five hover/visibility
listeners. -/
def removeEventListeners (s : SState) : SState :=
  { s with docListeners :=
      s.docListeners.filter (fun l => !(allDocListeners.contains l)) }

/-- Method `abortInspection`: removes the document listeners, calls the
module-level `removeAllPopovers`, disables frame highlighting, and resets
the inspecting flag. -/
def abortInspection (s : SState) : SState :=
  let s1 := removeEventListeners s
  let s2 := removeAllPopoversModule s1
  let s3 := toggleFrameHighlighting s2 false
  { s3 with isInspecting := false }

/-- Handler `onDisconnect`: drops the port reference and aborts inspection. -/
def onDisconnect (s : SState) : SState :=
  abortInspection { s with port := false }

/-- The `popoverElement` record built by
`insertPopoversConditionHandler`. -/
structure PopoverElement where
  frameWithTooltip : Option Nat
  firstToolTip : Option Popover
deriving Repr, DecidableEq

/-- The mixed visible/hidden tooltip loop
(`frameElements.forEach((frame, index) => ...)`): inserts a tooltip for
every non-hidden frame, records the last non-hidden frame as
`frameWithTooltip`, and records the tooltip of index 0 (when non-hidden)
as `firstToolTip`. -/
def mixedTooltipLoop (env : Env) (vis hid : Nat) :
    SState → PopoverElement → Nat → List Nat → SState × PopoverElement
  | s, pe, _, [] => (s, pe)
  | s, pe, idx, i :: rest =>
    if hiddenOf env i then
      mixedTooltipLoop env vis hid s pe (idx + 1) rest
    else
      let r := insertTooltip s (some i) vis hid
      let pe' : PopoverElement :=
        { frameWithTooltip := some i
          firstToolTip := if idx = 0 then some r.2 else pe.firstToolTip }
      mixedTooltipLoop env vis hid r.1 pe' (idx + 1) rest

/-- Method `insertPopoversConditionHandler`: the three-way case split on the
visible/hidden counts, inserting overlays and tooltips and reporting the
anchor frame and the primary tooltip. -/
def insertPopoversConditionHandler (env : Env) (s : SState) (ids : List Nat)
    (visibleIFrameCount hiddenIFrameCount : Nat) :
    SState × PopoverElement :=
  if hiddenIFrameCount = 0 then
    -- All frames are visible.
    let s1 := ids.foldl (fun st i => insertOverlay st i) s
    let iframeForTooltip : Option Nat :=
      match s.hoveredFrame with
      | some h => some h
      | none =>
        -- forEach's `return` only skips to the next iteration, so the
        -- last frame passing the visibility check wins.
        ids.foldl (fun acc i => if visTrueOf env i then some i else acc) ids.head?
    let r := insertTooltip s1 iframeForTooltip visibleIFrameCount hiddenIFrameCount
    (r.1, { frameWithTooltip := iframeForTooltip, firstToolTip := some r.2 })
  else if visibleIFrameCount = 0 then
    -- All frames are hidden.
    match ids.head? with
    | some f =>
      let s1 := insertOverlay s f
      let s2 := (insertTooltip s1 (some f) visibleIFrameCount hiddenIFrameCount).1
      (s2, { frameWithTooltip := none, firstToolTip := none })
    | none =>
      -- unreachable: the caller only enters with a nonempty frame list
      (s, { frameWithTooltip := none, firstToolTip := none })
  else
    -- Mixed visible/hidden.
    let s1 := ids.foldl
      (fun st i => if hiddenOf env i then st else insertOverlay st i) s
    mixedTooltipLoop env visibleIFrameCount hiddenIFrameCount s1
      { frameWithTooltip := none, firstToolTip := none } 0 ids

/-- The one-argument `isElementVisibleInViewport` applied to the nullable
`frameWithTooltip` (a null anchor is never reached when the guard's first
conjunct holds). -/
def visDefaultOpt (env : Env) : Option Nat → Bool
  | some i => visDefaultOf env i
  | none => false

/-- Method `insertPopovers`: the popover-insertion algorithm driven by an
inbound command. -/
def insertPopovers (env : Env) (s : SState) (resp : ResponseType) : SState :=
  if resp.removeAllFramePopovers && strFalsy resp.selectedFrame then
    removeAllPopoversModule s
  else if strFalsy resp.selectedFrame then
    s
  else
    let sel := resp.selectedFrame.getD ""
    let ids := findSelectedFrameElements env sel
    let s := { s with effects := s.effects ++ [.discovery sel] }
    let fc := getFrameCount env ids
    -- Remove previous frames.
    let s := removeAllPopoversThis s
    if fc.numberOfFrames = 0 then
      (insertTooltip s none 0 0).1
    else
      match ids.head? with
      | none => s -- unreachable: `numberOfFrames ≠ 0`
      | some frameToScrollTo =>
        let r := insertPopoversConditionHandler env s ids
          fc.numberOfVisibleFrames fc.numberOfHiddenFrames
        let s1 := r.1
        let pe := r.2
        if pe.firstToolTip.isSome
            && !s1.isHoveringOverPage
            && clientWidthOf env frameToScrollTo != 0
            && !(visDefaultOpt env pe.frameWithTooltip) then
          { s1 with effects := s1.effects ++ [.autoScroll] }
        else
          s1

/-- Handler `onMessage`: stores the inspecting flag, then either (re)installs the
listeners, enables highlighting and runs popover insertion, or aborts. -/
def onMessage (env : Env) (s : SState) (resp : ResponseType) : SState :=
  let s := { s with isInspecting := resp.isInspecting }
  if resp.isInspecting then
    let s := removeEventListeners s
    let s := addEventListeners s
    let s := toggleFrameHighlighting s true
    insertPopovers env s resp
  else
    abortInspection s

/-- The `event.target` of a hover event as the handler classifies it:
its tag, the four classes tested, and (when it is an iframe) its
environment id. -/
structure Target where
  tagIsIframe : Bool
  clsTooltip : Bool
  clsInfoToggle : Bool
  clsEnablePointer : Bool
  clsPsHover : Bool
  frameId : Nat
deriving Repr, DecidableEq

/-- The frame's `src` attribute with `about:blank` normalized to the
empty string, and absence read as the empty string (JS falsiness of
`null`). -/
def srcResolved (env : Env) (i : Nat) : String :=
  match frameOf env i with
  | some f =>
    match f.srcAttr with
    | none => ""
    | some a => if a == "about:blank" then "" else a
  | none => ""

/-- Handler `handleHoverEvent`.  `chromeRuntimeId` models `chrome.runtime?.id`
being present; `postOk` models whether `port.postMessage` succeeds.
`.error s` means an exception escaped the handler with the state `s` at
the throw point (the body-hover post is not guarded by any try/catch);
`.ok s` is a normal return. -/
def handleHoverEvent (env : Env) (s : SState) (t : Target)
    (chromeRuntimeId : Bool) (postOk : Bool) : Except SState SState :=
  let isNonIframeElement := !t.tagIsIframe
  let isTooltipElement := t.clsTooltip || t.clsInfoToggle || t.clsEnablePointer
  let isHoverableElement := t.clsTooltip || t.clsPsHover
  let s0 := { s with hoveredFrame := none }
  if isTooltipElement || isHoverableElement then
    .ok s0
  else
    let s1 := { s0 with isHoveringOverPage := true }
    let bodyStep : Except SState SState :=
      if !s1.bodyHoverStateSent && s1.isInspecting && isNonIframeElement && s1.port then
        let sA := removeAllPopoversModule s1
        if chromeRuntimeId then
          if postOk then
            .ok { sA with
              sent := sA.sent ++ [{ iframeOrigin := "", isNullSetFromHover := none }]
              bodyHoverStateSent := true }
          else
            -- the post threw; there is no catch around it
            .error sA
        else
          .ok { sA with bodyHoverStateSent := true }
      else
        .ok s1
    match bodyStep with
    | .error e => .error e
    | .ok s2 =>
      if !s2.isInspecting || isNonIframeElement then
        .ok s2
      else
        let s3 := { s2 with bodyHoverStateSent := false, hoveredFrame := some t.frameId }
        let srcStr := srcResolved env t.frameId
        let s4 :=
          if srcStr == "" then
            let sB := removeAllPopoversThis s3
            let sB := insertOverlay sB t.frameId
            (insertTooltip sB (some t.frameId) 1 0).1
          else
            s3
        let parsed : Option (Option String) :=
          if srcStr == "" then
            some none
          else
            match env.urlOrigin srcStr with
            | some o => some (some o)
            | none => none
        match parsed with
        | none => .ok s4 -- `new URL` threw; caught, plain return
        | some urlOpt =>
          if !s4.port then
            .ok s4
          else if chromeRuntimeId then
            if postOk then
              .ok { s4 with sent := s4.sent ++
                [{ iframeOrigin := match urlOpt with | some o => o | none => ""
                   isNullSetFromHover := some (match urlOpt with | some _ => false | none => true) }] }
            else
              .ok (abortInspection s4) -- caught: fatal channel failure
          else
            .ok s4

/-- Handler `handleMouseMove`: toggles `isHoveringOverPage` on
mouseenter/mouseleave and forces it off while the document is hidden. -/
def handleMouseMove (s : SState) (eventType : String) (documentHidden : Bool) : SState :=
  let s1 :=
    if eventType == "mouseenter" then { s with isHoveringOverPage := true }
    else if eventType == "mouseleave" then { s with isHoveringOverPage := false }
    else s
  if documentHidden then { s1 with isHoveringOverPage := false } else s1

/-- Runs one hover event with a live runtime and a succeeding post,
extracting the state (no exception occurs on this path). -/
def hoverRun1 (env : Env) (s : SState) (t : Target) : SState :=
  match handleHoverEvent env s t true true with
  | .ok s' => s'
  | .error s' => s'

/-- Folds a sequence of hover events. -/
def runHovers (env : Env) (s : SState) (ts : List Target) : SState :=
  ts.foldl (hoverRun1 env) s

/-- A plain host-page element: not an iframe, none of the tooltip or
hoverable classes. -/
def bodyTarget : Target :=
  { tagIsIframe := false, clsTooltip := false, clsInfoToggle := false
    clsEnablePointer := false, clsPsHover := false, frameId := 0 }

/-- An inspectable iframe element with environment id `i`. -/
def frameTarget (i : Nat) : Target :=
  { tagIsIframe := true, clsTooltip := false, clsInfoToggle := false
    clsEnablePointer := false, clsPsHover := false, frameId := i }

/-! ## Lemmas about notch-class bookkeeping -/

lemma activeNotches_clearAdd (n : List String) (c : String) (hc : isNotchClass c = true) :
    activeNotches (classListAdd (clearNotchClasses n) c) = [c] := by
  unfold activeNotches classListAdd
  by_cases hmem : c ∈ clearNotchClasses n
  · exfalso
    unfold clearNotchClasses at hmem
    have h := (List.mem_filter.mp hmem).2
    rw [hc] at h
    simp at h
  · rw [if_neg hmem, List.filter_append]
    have h1 : (clearNotchClasses n).filter isNotchClass = [] := by
      rw [List.filter_eq_nil_iff]
      intro a ha
      unfold clearNotchClasses at ha
      have h := (List.mem_filter.mp ha).2
      intro hcontra
      rw [hcontra] at h
      simp at h
    rw [h1]
    simp [hc]

/-! ## Claim theorems for the tooltip placement engine -/

/-- Concrete tooltip carrying a stale notch class from a previous
placement. -/
def c3Tip : TooltipEl :=
  { offsetWidth := 100, offsetHeight := 50, classes := []
    notch := ["ps-tooltip-bottom-right-notch"]
    top := .px 0, left := .px 0, right := .px 0, maxWidth := .px 0 }

/-- C3 counterexample: calling the placement function with no frame on a
tooltip that already carries the bottom-right notch adds the top-left
notch without clearing, leaving two of the four notch classes active. -/
theorem C3_counterexample :
    (setTooltipPosition ⟨0, 0, 800, 600⟩ "https://host.example" (some c3Tip)
        none false none).map (fun t => activeNotches t.notch)
      = some ["ps-tooltip-bottom-right-notch", "ps-tooltip-top-left-notch"] := by
  rfl

/-- C3 (amended): in the six branches that anchor the tooltip above or
below the frame, all four notch classes are removed before the branch's
notch is applied, so exactly one notch class is active after the call;
the no-frame, hidden-frame and self-origin branches add the top-left
notch without clearing, and the no-room fall-back leaves the notch
classes untouched. -/
theorem C3_amended (w : WinEnv) (d : String) (tip : TooltipEl) (f : FrameEl)
    (sel : Option String)
    (hns : ¬(sel = some d))
    (hb : (f.rect.y > tip.offsetHeight ∧ f.rect.y - tip.offsetHeight ≥ 1) ∨
          f.rect.y + tip.offsetHeight < w.innerHeight) :
    ∃ t', setTooltipPosition w d (some tip) (some f) false sel = some t' ∧
      (activeNotches t'.notch).length = 1 := by
  unfold setTooltipPosition
  simp only [Bool.false_eq_true, if_false, if_neg hns]
  by_cases h1 : f.rect.y > tip.offsetHeight ∧ f.rect.y - tip.offsetHeight ≥ 1
  · rw [if_pos h1]
    by_cases h2 : f.rect.x + tip.offsetWidth > w.innerWidth ∧ f.rect.x - tip.offsetWidth > 0
    · rw [if_pos h2]
      exact ⟨_, rfl, by rw [activeNotches_clearAdd] <;> rfl⟩
    · rw [if_neg h2]
      by_cases h3 : f.rect.x + tip.offsetWidth < w.innerWidth ∧ f.rect.x - tip.offsetWidth < 0
      · rw [if_pos h3]
        exact ⟨_, rfl, by rw [activeNotches_clearAdd] <;> rfl⟩
      · rw [if_neg h3]
        exact ⟨_, rfl, by rw [activeNotches_clearAdd] <;> rfl⟩
  · rw [if_neg h1]
    have h4 : f.rect.y + tip.offsetHeight < w.innerHeight := hb.resolve_left h1
    rw [if_pos h4]
    by_cases h5 : f.rect.x + f.rect.width - w.innerWidth > 0 ∧
        f.rect.x + tip.offsetWidth > w.innerWidth
    · rw [if_pos h5]
      exact ⟨_, rfl, by rw [activeNotches_clearAdd] <;> rfl⟩
    · rw [if_neg h5]
      by_cases h6 : f.rect.x + f.rect.width - w.innerWidth < 0 ∧
          f.rect.x + tip.offsetWidth < w.innerWidth
      · rw [if_pos h6]
        exact ⟨_, rfl, by rw [activeNotches_clearAdd] <;> rfl⟩
      · rw [if_neg h6]
        exact ⟨_, rfl, by rw [activeNotches_clearAdd] <;> rfl⟩

/-- Witness for C3 (amended) at a concrete frame with room above and a
stale notch class on the tooltip. -/
theorem C3_amended_witness :
    ∃ t', setTooltipPosition ⟨7, 100, 800, 700⟩ "https://host.example"
        (some { offsetWidth := 100, offsetHeight := 50, classes := []
                notch := ["ps-tooltip-top-right-notch"]
                top := .px 0, left := .px 0, right := .px 0, maxWidth := .px 0 })
        (some { rect := { x := 10, y := 600, width := 300 }, offsetHeight := 50 })
        false (some "https://a.test") = some t' ∧
      (activeNotches t'.notch).length = 1 :=
  C3_amended _ _ _ _ _ (by decide) (Or.inl (by constructor <;> decide))

/-- Concrete inputs driving the placement function into its final
fall-back branch (no room above or below). -/
def c4Tip : TooltipEl :=
  { offsetWidth := 100, offsetHeight := 500, classes := [], notch := []
    top := .px 0, left := .px 0, right := .px 0, maxWidth := .px 0 }

/-- Frame for the C4 counterexample. -/
def c4Frame : FrameEl := { rect := { x := 10, y := 100, width := 300 }, offsetHeight := 50 }

/-- C4 counterexample: in the fall-back branch (no room above or below)
with `scrollY = 100`, the computed top is the viewport-relative frame top
`100px`, not the document-relative `frameY + scrollY = 200px` the claim
requires. -/
theorem C4_counterexample :
    (setTooltipPosition ⟨7, 100, 800, 400⟩ "h" (some c4Tip) (some c4Frame)
        false (some "sel")).map (fun t => t.top) = some (.px 100)
    ∧ StyleVal.px 100 ≠ StyleVal.px (c4Frame.rect.y + (100 : Int)) := by
  constructor
  · rfl
  · decide

/-- C4 (amended): in the above-the-frame and below-the-frame branches —
excluding the right-aligned sub-branches, whose horizontal coordinates
are viewport-relative, and for frames with a non-negative left edge —
top incorporates `scrollY` and left incorporates `scrollX`; the final
fall-back branch taken when there is room neither above nor below sets
top to the frame's viewport-relative top without the scroll offset. -/
theorem C4_amended (w : WinEnv) (d : String) (tip : TooltipEl) (f : FrameEl)
    (sel : Option String)
    (hns : ¬(sel = some d)) (hx : 0 ≤ f.rect.x)
    (hnotR : ¬(f.rect.x + tip.offsetWidth > w.innerWidth ∧
               f.rect.x - tip.offsetWidth > 0))
    (hnotRB : ¬(f.rect.x + f.rect.width - w.innerWidth > 0 ∧
                f.rect.x + tip.offsetWidth > w.innerWidth)) :
    ((f.rect.y > tip.offsetHeight ∧ f.rect.y - tip.offsetHeight ≥ 1) →
      ∃ t', setTooltipPosition w d (some tip) (some f) false sel = some t' ∧
        t'.top = .px (f.rect.y - tip.offsetHeight + w.scrollY) ∧
        t'.left = .px (f.rect.x + w.scrollX))
    ∧ (¬(f.rect.y > tip.offsetHeight ∧ f.rect.y - tip.offsetHeight ≥ 1) →
        f.rect.y + tip.offsetHeight < w.innerHeight →
      ∃ t', setTooltipPosition w d (some tip) (some f) false sel = some t' ∧
        t'.top = .px (f.rect.y + f.offsetHeight + w.scrollY) ∧
        t'.left = .px (f.rect.x + w.scrollX)) := by
  have hxneg : ¬(f.rect.x < 0) := not_lt.mpr hx
  constructor
  · intro h1
    unfold setTooltipPosition
    simp only [Bool.false_eq_true, if_false, if_neg hns]
    rw [if_pos h1, if_neg hnotR]
    by_cases h3 : f.rect.x + tip.offsetWidth < w.innerWidth ∧ f.rect.x - tip.offsetWidth < 0
    · rw [if_pos h3]
      exact ⟨_, rfl, rfl, rfl⟩
    · rw [if_neg h3]
      refine ⟨_, rfl, rfl, ?_⟩
      simp only [if_neg hxneg]
  · intro h1 h4
    unfold setTooltipPosition
    simp only [Bool.false_eq_true, if_false, if_neg hns]
    rw [if_neg h1, if_pos h4, if_neg hnotRB]
    by_cases h6 : f.rect.x + f.rect.width - w.innerWidth < 0 ∧
        f.rect.x + tip.offsetWidth < w.innerWidth
    · rw [if_pos h6]
      exact ⟨_, rfl, rfl, rfl⟩
    · rw [if_neg h6]
      refine ⟨_, rfl, rfl, ?_⟩
      simp only [if_neg hxneg]

/-- Witness for C4 (amended) at a concrete frame with room above. -/
theorem C4_amended_witness :
    ((600 : Int) > (50 : Int) ∧ (600 : Int) - (50 : Int) ≥ 1) ∧
    ∃ t', setTooltipPosition ⟨7, 100, 800, 700⟩ "https://host.example"
        (some { offsetWidth := 100, offsetHeight := 50, classes := [], notch := []
                top := .px 0, left := .px 0, right := .px 0, maxWidth := .px 0 })
        (some { rect := { x := 10, y := 600, width := 300 }, offsetHeight := 50 })
        false (some "https://a.test") = some t' ∧
      t'.top = .px (600 - 50 + 100) ∧ t'.left = .px (10 + 7) :=
  ⟨⟨by decide, by decide⟩,
    (C4_amended ⟨7, 100, 800, 700⟩ "https://host.example" _ _ _
      (by decide) (by decide) (by decide) (by decide)).1 ⟨by decide, by decide⟩⟩

/-- C10: the placement function is total at its public interface — a
`null` tooltip returns immediately, independent of the frame, the
hidden flag, the selected origin and the window state, leaving no style
or class mutation behind (the tooltip is the only state the function
writes); and when only the frame is `null` the sentinel rectangle
`x = -1, y = -1, width = -1` feeds the preamble (visible as
`maxWidth = -1 - 40 = -41px`) before the fixed-pin branch runs. -/
theorem C10_null_tooltip_total :
    (∀ (w : WinEnv) (d : String) (frame : Option FrameEl) (hid : Bool)
        (sel : Option String),
      setTooltipPosition w d none frame hid sel = none)
    ∧ (∀ (w : WinEnv) (d : String) (tip : TooltipEl) (hid : Bool)
        (sel : Option String),
      setTooltipPosition w d (some tip) none hid sel =
        some { tip with
          maxWidth := .px (-41)
          top := .px 0
          left := .auto
          right := .px 30
          classes := classListAdd tip.classes "ps-fixed"
          notch := classListAdd tip.notch "ps-tooltip-top-left-notch" }) := by
  constructor
  · intro w d frame hid sel
    rfl
  · intro w d tip hid sel
    rfl

/-- Witness for C10 at concrete inputs. -/
theorem C10_witness :
    setTooltipPosition ⟨3, 4, 800, 600⟩ "o" none (some c4Frame) true (some "z")
      = none :=
  C10_null_tooltip_total.1 ⟨3, 4, 800, 600⟩ "o" (some c4Frame) true (some "z")

/-! ## Projection lemmas for the controller operations -/

lemma contains_allDocListeners (l : DocListener) : allDocListeners.contains l = true := by
  cases l <;> rfl

@[simp] lemma removeEventListeners_docListeners (s : SState) :
    (removeEventListeners s).docListeners = [] := by
  unfold removeEventListeners
  dsimp only
  rw [List.filter_eq_nil_iff]
  intro a _
  rw [contains_allDocListeners a]
  simp

@[simp] lemma removeAllPopoversThis_popovers (s : SState) :
    (removeAllPopoversThis s).popovers = [] := rfl

@[simp] lemma removeAllPopoversThis_scroll (s : SState) :
    (removeAllPopoversThis s).scrollEventListeners = [] := by
  unfold removeAllPopoversThis removeAllPopoversModule
  dsimp only
  split
  · next h => simpa [List.length_eq_zero] using h
  · rfl

@[simp] lemma removeAllPopoversThis_sent (s : SState) :
    (removeAllPopoversThis s).sent = s.sent := by
  unfold removeAllPopoversThis removeAllPopoversModule
  dsimp only
  split <;> rfl

@[simp] lemma removeAllPopoversThis_port (s : SState) :
    (removeAllPopoversThis s).port = s.port := by
  unfold removeAllPopoversThis removeAllPopoversModule
  dsimp only
  split <;> rfl

@[simp] lemma removeAllPopoversThis_isInspecting (s : SState) :
    (removeAllPopoversThis s).isInspecting = s.isInspecting := by
  unfold removeAllPopoversThis removeAllPopoversModule
  dsimp only
  split <;> rfl

@[simp] lemma removeAllPopoversThis_docListeners (s : SState) :
    (removeAllPopoversThis s).docListeners = s.docListeners := by
  unfold removeAllPopoversThis removeAllPopoversModule
  dsimp only
  split <;> rfl

@[simp] lemma removeAllPopoversThis_effects (s : SState) :
    (removeAllPopoversThis s).effects = s.effects := by
  unfold removeAllPopoversThis removeAllPopoversModule
  dsimp only
  split <;> rfl

@[simp] lemma removeAllPopoversThis_hoveredFrame (s : SState) :
    (removeAllPopoversThis s).hoveredFrame = s.hoveredFrame := by
  unfold removeAllPopoversThis removeAllPopoversModule
  dsimp only
  split <;> rfl

@[simp] lemma removeAllPopoversThis_isHoveringOverPage (s : SState) :
    (removeAllPopoversThis s).isHoveringOverPage = s.isHoveringOverPage := by
  unfold removeAllPopoversThis removeAllPopoversModule
  dsimp only
  split <;> rfl

@[simp] lemma removeAllPopoversThis_bodyHoverStateSent (s : SState) :
    (removeAllPopoversThis s).bodyHoverStateSent = s.bodyHoverStateSent := by
  unfold removeAllPopoversThis removeAllPopoversModule
  dsimp only
  split <;> rfl

@[simp] lemma removeAllPopoversThis_nextCallbackId (s : SState) :
    (removeAllPopoversThis s).nextCallbackId = s.nextCallbackId := by
  unfold removeAllPopoversThis removeAllPopoversModule
  dsimp only
  split <;> rfl

@[simp] lemma removeAllPopoversThis_frameHighlighting (s : SState) :
    (removeAllPopoversThis s).frameHighlighting = s.frameHighlighting := by
  unfold removeAllPopoversThis removeAllPopoversModule
  dsimp only
  split <;> rfl

@[simp] lemma insertOverlay_port (s : SState) (i : Nat) :
    (insertOverlay s i).port = s.port := rfl

@[simp] lemma insertTooltip_port (s : SState) (f : Option Nat) (v h : Nat) :
    (insertTooltip s f v h).1.port = s.port := rfl

/-- The fields `abortInspection` sets and the fields it leaves alone. -/
lemma abortInspection_fields (s : SState) :
    (abortInspection s).docListeners = [] ∧
    (abortInspection s).popovers = [] ∧
    (abortInspection s).frameHighlighting = false ∧
    (abortInspection s).isInspecting = false ∧
    (abortInspection s).scrollEventListeners = s.scrollEventListeners ∧
    (abortInspection s).winScrollListeners = s.winScrollListeners ∧
    (abortInspection s).sent = s.sent ∧
    (abortInspection s).port = s.port := by
  unfold abortInspection removeAllPopoversModule toggleFrameHighlighting
  dsimp only
  refine ⟨?_, rfl, rfl, rfl, rfl, rfl, rfl, rfl⟩
  exact removeEventListeners_docListeners s

/-! ## Shared concrete inputs -/

/-- A quiescent inspecting state: live port, inspecting, nothing hovered,
no popovers, the five document listeners installed. -/
def inspState : SState :=
  { port := true, isInspecting := true, isHoveringOverPage := false
    bodyHoverStateSent := false, scrollEventListeners := [], hoveredFrame := none
    popovers := [], winScrollListeners := [], docListeners := allDocListeners
    frameHighlighting := true, nextCallbackId := 0, sent := [], effects := [] }

/-- State `inspState` with one rendered popover tracked by one registered
scroll callback (id 7). -/
def regState : SState :=
  { inspState with
    scrollEventListeners := [7], winScrollListeners := [7]
    nextCallbackId := 8, popovers := [.overlay 0] }

/-- Three frames of origin `https://a.test`: frame 0 fully visible with
nonzero width, frame 1 hidden (zero width, no intersection), frame 2
scrolled out of view with nonzero width and no `src` attribute. -/
def envThree : Env :=
  { frames :=
      [{ origin := "https://a.test", srcAttr := some "https://a.test/x"
         clientWidth := 100, visTrue := true, visDefault := true },
       { origin := "https://a.test", srcAttr := some ""
         clientWidth := 0, visTrue := false, visDefault := false },
       { origin := "https://a.test", srcAttr := none
         clientWidth := 100, visTrue := false, visDefault := false }]
    urlOrigin := fun s =>
      if s == "https://a.test/x" then some "https://a.test" else none }

/-! ## Claim theorems for the controller -/

/-- C1: the code violates the drain invariant.  With one scroll callback
registered (id 7), a stop-inspecting command, a session disconnect, and a
body-hover transition each clear the popovers through the module-level
`removeAllPopovers`, which cannot reach the controller's registry: the
registry still holds the callback and the callback is still attached to
the window afterwards, so the listener count (1) differs from the
popover count (0), and after stop-inspecting the counts are not both
zero as claimed. -/
theorem C1_registry_not_drained :
    ((onMessage envThree regState ⟨false, none, false⟩).scrollEventListeners = [7] ∧
     (onMessage envThree regState ⟨false, none, false⟩).winScrollListeners = [7] ∧
     (onMessage envThree regState ⟨false, none, false⟩).popovers = []) ∧
    ((onDisconnect regState).scrollEventListeners = [7] ∧
     (onDisconnect regState).popovers = []) ∧
    ((hoverRun1 envThree regState bodyTarget).scrollEventListeners = [7] ∧
     (hoverRun1 envThree regState bodyTarget).winScrollListeners = [7] ∧
     (hoverRun1 envThree regState bodyTarget).popovers = []) :=
  ⟨⟨rfl, rfl, rfl⟩, ⟨rfl, rfl⟩, ⟨rfl, rfl, rfl⟩⟩

/-- Returns `true` iff the handler let an exception escape. -/
def exceptIsError (r : Except SState SState) : Bool :=
  match r with
  | .error _ => true
  | .ok _ => false

/-- The state carried by either outcome of the handler. -/
def exceptState (r : Except SState SState) : SState :=
  match r with
  | .error e => e
  | .ok s => s

/-- C2 counterexample: a body-hover post that throws escapes
`handleHoverEvent` (it is not wrapped in any try/catch), and the state at
the throw point still has the inspecting flag set and all five document
listeners installed — no local abort happened. -/
theorem C2_counterexample :
    exceptIsError (handleHoverEvent envThree inspState bodyTarget true false) = true ∧
    (exceptState (handleHoverEvent envThree inspState bodyTarget true false)).isInspecting
      = true ∧
    (exceptState (handleHoverEvent envThree inspState bodyTarget true false)).docListeners
      = allDocListeners :=
  ⟨rfl, rfl, rfl⟩

/-- C2 (amended): only the frame-hover report is guarded — when that post
throws, the controller aborts inspection locally (document listeners
removed, popovers cleared, frame highlighting disabled, inspecting flag
reset) and the handler returns normally; the body-hover post is not
guarded, so an exception there propagates to the caller without a local
abort. -/
theorem C2_amended_frame_post_abort (env : Env) (s : SState) (t : Target)
    (hif : t.tagIsIframe = true) (hc1 : t.clsTooltip = false)
    (hc2 : t.clsInfoToggle = false) (hc3 : t.clsEnablePointer = false)
    (hc4 : t.clsPsHover = false)
    (hin : s.isInspecting = true) (hport : s.port = true)
    (hpost : srcResolved env t.frameId = "" ∨
             (env.urlOrigin (srcResolved env t.frameId)).isSome = true) :
    ∃ s', handleHoverEvent env s t true false = .ok s' ∧
      s'.docListeners = [] ∧ s'.popovers = [] ∧
      s'.frameHighlighting = false ∧ s'.isInspecting = false := by
  unfold handleHoverEvent
  dsimp only
  rw [hif, hc1, hc2, hc3, hc4, hin, hport]
  simp only [Bool.not_true, Bool.and_false, Bool.false_and, Bool.and_true,
    Bool.false_or, Bool.or_false, Bool.or_self, Bool.not_false, Bool.true_and,
    Bool.and_self, Bool.false_eq_true, Bool.true_eq_false, if_false, if_true,
    ite_false, ite_true]
  by_cases hempty : srcResolved env t.frameId = ""
  · have hbeq : (srcResolved env t.frameId == "") = true := by
      rw [hempty]; rfl
    simp only [hbeq, if_true, ite_true, insertTooltip_port, insertOverlay_port,
      removeAllPopoversThis_port]
    simp only [Bool.not_true, Bool.false_eq_true, if_false, ite_false]
    refine ⟨_, rfl, (abortInspection_fields _).1, (abortInspection_fields _).2.1,
      (abortInspection_fields _).2.2.1, (abortInspection_fields _).2.2.2.1⟩
  · have hbeq : (srcResolved env t.frameId == "") = false := by
      simpa using hempty
    simp only [hbeq, if_false, ite_false, Bool.false_eq_true]
    have hsome : (env.urlOrigin (srcResolved env t.frameId)).isSome = true :=
      hpost.resolve_left hempty
    obtain ⟨o, ho⟩ := Option.isSome_iff_exists.mp hsome
    rw [ho]
    dsimp only
    simp only [Bool.not_true, Bool.false_eq_true, if_false, ite_false]
    refine ⟨_, rfl, (abortInspection_fields _).1, (abortInspection_fields _).2.1,
      (abortInspection_fields _).2.2.1, (abortInspection_fields _).2.2.2.1⟩

/-- Witness for C2 (amended): hovering frame 2 (no `src` attribute) while
inspecting, with a throwing post, ends in the aborted state. -/
theorem C2_amended_witness :
    ∃ s', handleHoverEvent envThree inspState (frameTarget 2) true false = .ok s' ∧
      s'.docListeners = [] ∧ s'.popovers = [] ∧
      s'.frameHighlighting = false ∧ s'.isInspecting = false :=
  C2_amended_frame_post_abort envThree inspState (frameTarget 2)
    rfl rfl rfl rfl rfl rfl rfl (Or.inl rfl)

/-- C7: a command carrying `removeAllFramePopovers` with no
`selectedFrame` removes the popover DOM nodes and changes nothing else —
no insertion, no outbound message, no discovery effect, no listener
change. -/
theorem C7_removeAll_noop (env : Env) (s : SState) (resp : ResponseType)
    (h1 : resp.removeAllFramePopovers = true) (h2 : resp.selectedFrame = none) :
    insertPopovers env s resp = { s with popovers := [] } := by
  unfold insertPopovers
  rw [h1, h2]
  rfl

/-- Witness for C7 at a concrete state with rendered popovers. -/
theorem C7_witness :
    insertPopovers envThree regState ⟨true, none, true⟩ = { regState with popovers := [] } :=
  C7_removeAll_noop envThree regState ⟨true, none, true⟩ rfl rfl

/-- C9: a hover on an inspectable iframe whose resolved `src` is empty
(absent, empty, or `about:blank`) both renders a single-frame overlay and
tooltip locally (visible count 1, hidden count 0) and still posts the
outbound report with empty `iframeOrigin` and `isNullSetFromHover =
true`; the local rendering does not suppress the report. -/
theorem C9_null_src_renders_and_reports (env : Env) (s : SState) (t : Target)
    (hif : t.tagIsIframe = true) (hc1 : t.clsTooltip = false)
    (hc2 : t.clsInfoToggle = false) (hc3 : t.clsEnablePointer = false)
    (hc4 : t.clsPsHover = false)
    (hin : s.isInspecting = true) (hport : s.port = true)
    (hsrc : srcResolved env t.frameId = "") :
    ∃ s', handleHoverEvent env s t true true = .ok s' ∧
      s'.popovers = [Popover.overlay t.frameId, Popover.tooltip (some t.frameId) 1 0] ∧
      s'.sent = s.sent ++ [{ iframeOrigin := "", isNullSetFromHover := some true }] := by
  unfold handleHoverEvent
  dsimp only
  rw [hif, hc1, hc2, hc3, hc4, hin, hport]
  simp only [Bool.not_true, Bool.and_false, Bool.false_and, Bool.and_true,
    Bool.false_or, Bool.or_false, Bool.or_self, Bool.not_false, Bool.true_and,
    Bool.and_self, Bool.false_eq_true, Bool.true_eq_false, if_false, if_true,
    ite_false, ite_true]
  have hbeq : (srcResolved env t.frameId == "") = true := by rw [hsrc]; rfl
  simp only [hbeq, if_true, ite_true, insertTooltip_port, insertOverlay_port,
    removeAllPopoversThis_port]
  simp only [Bool.not_true, Bool.false_eq_true, if_false, ite_false]
  refine ⟨_, rfl, ?_, ?_⟩
  · simp [insertTooltip, insertOverlay, addEventListerOnScroll,
      addTooltipModule, addOverlayModule]
  · simp [insertTooltip, insertOverlay, addEventListerOnScroll,
      addTooltipModule, addOverlayModule]

/-- Witness for C9: hovering frame 2 of the concrete environment (no
`src` attribute) renders locally and still reports. -/
theorem C9_witness :
    ∃ s', handleHoverEvent envThree inspState (frameTarget 2) true true = .ok s' ∧
      s'.popovers = [Popover.overlay 2, Popover.tooltip (some 2) 1 0] ∧
      s'.sent = inspState.sent ++ [{ iframeOrigin := "", isNullSetFromHover := some true }] :=
  C9_null_src_renders_and_reports envThree inspState (frameTarget 2)
    rfl rfl rfl rfl rfl rfl rfl rfl

/-! ## Hover debounce (C6) -/

/-- A body-hover report: empty origin and no `isNullSetFromHover` field
(the frame-hover report always carries that field). -/
def isBodyHoverMsg (m : OutMsg) : Bool :=
  m.iframeOrigin == "" &&
    (match m.isNullSetFromHover with | none => true | some _ => false)

/-- Number of body-hover reports in a message trace. -/
def bodyMsgCount (ms : List OutMsg) : Nat :=
  (ms.filter isBodyHoverMsg).length

@[simp] lemma bodyMsgCount_append (a b : List OutMsg) :
    bodyMsgCount (a ++ b) = bodyMsgCount a + bodyMsgCount b := by
  simp [bodyMsgCount, List.filter_append]

/-- First body hover while inspecting with the debounce flag clear:
clears the popover nodes, posts one body-hover report, sets the flag. -/
lemma hover_body_first (env : Env) (s : SState)
    (hin : s.isInspecting = true) (hport : s.port = true)
    (hflag : s.bodyHoverStateSent = false) :
    hoverRun1 env s bodyTarget =
      { s with hoveredFrame := none, isHoveringOverPage := true
               popovers := [], bodyHoverStateSent := true
               sent := s.sent ++ [{ iframeOrigin := "", isNullSetFromHover := none }] } := by
  unfold hoverRun1 handleHoverEvent
  dsimp only [bodyTarget]
  rw [hin, hport, hflag]
  rfl

/-- A body hover with the debounce flag already set: no report, no
popover change. -/
lemma hover_body_sub (env : Env) (s : SState)
    (hflag : s.bodyHoverStateSent = true) :
    hoverRun1 env s bodyTarget =
      { s with hoveredFrame := none, isHoveringOverPage := true } := by
  unfold hoverRun1 handleHoverEvent
  dsimp only [bodyTarget]
  rw [hflag]
  simp only [Bool.not_true, Bool.not_false, Bool.false_and, Bool.true_and,
    Bool.and_false, Bool.and_true, Bool.or_true, Bool.true_or, Bool.false_or,
    Bool.or_false, Bool.or_self, Bool.and_self, Bool.false_eq_true,
    Bool.true_eq_false, if_false, if_true, ite_false, ite_true]

/-- Repeated debounced body hovers are absorbed once the state already
records a cleared hover target and page-hover. -/
lemma runHovers_body_stable (env : Env) :
    ∀ (k : Nat) (s : SState), s.bodyHoverStateSent = true →
      s.hoveredFrame = none → s.isHoveringOverPage = true →
      runHovers env s (List.replicate k bodyTarget) = s := by
  intro k
  induction k with
  | zero => intro s _ _ _; rfl
  | succ k ih =>
    intro s hflag hh hv
    rw [List.replicate_succ]
    show runHovers env (hoverRun1 env s bodyTarget) (List.replicate k bodyTarget) = s
    rw [hover_body_sub env s hflag]
    have habs : { s with hoveredFrame := none, isHoveringOverPage := true } = s := by
      rw [← hh, ← hv]
    rw [habs]
    exact ih s hflag hh hv

/-- A hover landing on an inspectable frame with an empty resolved `src`
clears the debounce flag, records the hovered frame, and posts one
frame-hover report (never a body-hover report). -/
lemma hover_frame_nosrc_props (env : Env) (s : SState) (i : Nat)
    (hin : s.isInspecting = true) (hport : s.port = true)
    (hsrc : srcResolved env i = "") :
    (hoverRun1 env s (frameTarget i)).bodyHoverStateSent = false ∧
    (hoverRun1 env s (frameTarget i)).isInspecting = true ∧
    (hoverRun1 env s (frameTarget i)).port = true ∧
    (hoverRun1 env s (frameTarget i)).hoveredFrame = some i ∧
    (hoverRun1 env s (frameTarget i)).isHoveringOverPage = true ∧
    (hoverRun1 env s (frameTarget i)).sent =
      s.sent ++ [{ iframeOrigin := "", isNullSetFromHover := some true }] := by
  unfold hoverRun1 handleHoverEvent
  dsimp only [frameTarget]
  rw [hin, hport]
  simp only [Bool.not_true, Bool.and_false, Bool.false_and, Bool.and_true,
    Bool.false_or, Bool.or_false, Bool.or_self, Bool.not_false, Bool.true_and,
    Bool.and_self, Bool.false_eq_true, Bool.true_eq_false, if_false, if_true,
    ite_false, ite_true]
  have hbeq : (srcResolved env i == "") = true := by rw [hsrc]; rfl
  simp only [hbeq, if_true, ite_true, insertTooltip_port, insertOverlay_port,
    removeAllPopoversThis_port]
  simp only [Bool.not_true, Bool.false_eq_true, if_false, ite_false]
  refine ⟨?_, ?_, ?_, ?_, ?_, ?_⟩ <;>
    simp [insertTooltip, insertOverlay, addEventListerOnScroll,
      addTooltipModule, addOverlayModule, hin, hport]

/-- C6: while inspecting over a live session, a run of `n + 1`
consecutive body hovers produces exactly one body-hover report and sets
the debounce flag; a hover onto an inspectable frame clears the flag; a
following run of `m + 1` body hovers produces exactly one more, for a
total of exactly two. -/
theorem C6_hover_debounce (env : Env) (s : SState) (i n m : Nat)
    (hin : s.isInspecting = true) (hport : s.port = true)
    (hflag : s.bodyHoverStateSent = false)
    (hsrc : srcResolved env i = "") :
    bodyMsgCount ((runHovers env s (List.replicate (n + 1) bodyTarget)).sent)
      = bodyMsgCount s.sent + 1 ∧
    (runHovers env s (List.replicate (n + 1) bodyTarget)).bodyHoverStateSent = true ∧
    (runHovers env s
        (List.replicate (n + 1) bodyTarget ++ [frameTarget i])).bodyHoverStateSent
      = false ∧
    bodyMsgCount ((runHovers env s
        (List.replicate (n + 1) bodyTarget ++ frameTarget i ::
          List.replicate (m + 1) bodyTarget)).sent)
      = bodyMsgCount s.sent + 2 := by
  have hB := hover_body_first env s hin hport hflag
  have hfirst : runHovers env s (List.replicate (n + 1) bodyTarget) =
      { s with hoveredFrame := none, isHoveringOverPage := true
               popovers := [], bodyHoverStateSent := true
               sent := s.sent ++ [{ iframeOrigin := "", isNullSetFromHover := none }] } := by
    rw [List.replicate_succ]
    show runHovers env (hoverRun1 env s bodyTarget) (List.replicate n bodyTarget) = _
    rw [hB]
    exact runHovers_body_stable env n _ rfl rfl rfl
  set sB : SState :=
    { s with hoveredFrame := none, isHoveringOverPage := true
             popovers := [], bodyHoverStateSent := true
             sent := s.sent ++ [{ iframeOrigin := "", isNullSetFromHover := none }] }
    with hsB
  have hFprops := hover_frame_nosrc_props env sB i
    (by rw [hsB]; exact hin) (by rw [hsB]; exact hport) hsrc
  have hframe : runHovers env s (List.replicate (n + 1) bodyTarget ++ [frameTarget i])
      = hoverRun1 env sB (frameTarget i) := by
    rw [runHovers, List.foldl_append, ← runHovers, ← runHovers, hfirst]
    rfl
  refine ⟨?_, ?_, ?_, ?_⟩
  · rw [hfirst]
    simp [bodyMsgCount, isBodyHoverMsg]
  · rw [hfirst]
  · rw [hframe]
    exact hFprops.1
  · have hsplit : List.replicate (n + 1) bodyTarget ++ frameTarget i ::
        List.replicate (m + 1) bodyTarget =
        (List.replicate (n + 1) bodyTarget ++ [frameTarget i]) ++
          List.replicate (m + 1) bodyTarget := by
      simp
    rw [hsplit, runHovers, List.foldl_append, ← runHovers, ← runHovers, hframe]
    set sF := hoverRun1 env sB (frameTarget i) with hsF
    have hsecond : runHovers env sF (List.replicate (m + 1) bodyTarget) =
        { sF with hoveredFrame := none, isHoveringOverPage := true
                  popovers := [], bodyHoverStateSent := true
                  sent := sF.sent ++ [{ iframeOrigin := "", isNullSetFromHover := none }] } := by
      rw [List.replicate_succ]
      show runHovers env (hoverRun1 env sF bodyTarget) (List.replicate m bodyTarget) = _
      rw [hover_body_first env sF hFprops.2.1 hFprops.2.2.1 hFprops.1]
      exact runHovers_body_stable env m _ rfl rfl rfl
    rw [hsecond]
    dsimp only
    rw [hFprops.2.2.2.2.2, hsB]
    dsimp only
    simp [bodyMsgCount, isBodyHoverMsg]

/-- Witness for C6 with two body hovers either side of a hover on frame
2 of the concrete environment. -/
theorem C6_witness :
    bodyMsgCount ((runHovers envThree inspState
        (List.replicate 2 bodyTarget)).sent)
      = bodyMsgCount inspState.sent + 1 ∧
    (runHovers envThree inspState (List.replicate 2 bodyTarget)).bodyHoverStateSent = true ∧
    (runHovers envThree inspState
        (List.replicate 2 bodyTarget ++ [frameTarget 2])).bodyHoverStateSent = false ∧
    bodyMsgCount ((runHovers envThree inspState
        (List.replicate 2 bodyTarget ++ frameTarget 2 ::
          List.replicate 2 bodyTarget)).sent)
      = bodyMsgCount inspState.sent + 2 :=
  C6_hover_debounce envThree inspState 2 1 1 rfl rfl rfl rfl

/-! ## Closed forms for the insertion algorithm

`insertPopoversConditionHandler` interleaves state threading with the
choice of which overlays/tooltips to create.  The following definitions
recompute that choice as a pure "plan" so the claims about the rendered
popover set (C5, C8) can be stated and proved against it. -/

/-- One pending insertion. -/
inductive PInsert where
  | overlayIns (frame : Nat)
  | tooltipIns (frame : Option Nat) (vis hid : Nat)
deriving Repr, DecidableEq

/-- The popover node an insertion creates. -/
def toPopover : PInsert → Popover
  | .overlayIns i => .overlay i
  | .tooltipIns f v h => .tooltip f v h

/-- Executes one insertion. -/
def applyInsert (s : SState) : PInsert → SState
  | .overlayIns i => insertOverlay s i
  | .tooltipIns f v h => (insertTooltip s f v h).1

/-- Executes a list of insertions. -/
def applyPlan (s : SState) (ps : List PInsert) : SState :=
  ps.foldl applyInsert s

/-- The anchor the all-visible branch picks: the hovered frame if one is
recorded, else the last frame passing the visibility check, else the
first match. -/
def tooltipAnchor (env : Env) (hovered : Option Nat) (ids : List Nat) : Option Nat :=
  match hovered with
  | some hh => some hh
  | none => ids.foldl (fun acc i => if visTrueOf env i then some i else acc) ids.head?

/-- The insertions the three-way case split performs. -/
def planOf (env : Env) (hovered : Option Nat) (ids : List Nat) (v h : Nat) :
    List PInsert :=
  if h = 0 then
    ids.map PInsert.overlayIns ++ [.tooltipIns (tooltipAnchor env hovered ids) v h]
  else if v = 0 then
    match ids.head? with
    | some f => [.overlayIns f, .tooltipIns (some f) v h]
    | none => []
  else
    (ids.filter (fun i => !(hiddenOf env i))).map PInsert.overlayIns ++
      (ids.filter (fun i => !(hiddenOf env i))).map
        (fun i => PInsert.tooltipIns (some i) v h)

/-- Folds the "last non-hidden frame wins" update from an initial
value. -/
def lastNonHiddenFrom (env : Env) (init : Option Nat) (ids : List Nat) : Option Nat :=
  ids.foldl (fun acc i => if hiddenOf env i then acc else some i) init

/-- The `popoverElement` record the three-way case split reports. -/
def peOf (env : Env) (hovered : Option Nat) (ids : List Nat) (v h : Nat) :
    PopoverElement :=
  if h = 0 then
    { frameWithTooltip := tooltipAnchor env hovered ids
      firstToolTip := some (.tooltip (tooltipAnchor env hovered ids) v h) }
  else if v = 0 then
    { frameWithTooltip := none, firstToolTip := none }
  else
    { frameWithTooltip := lastNonHiddenFrom env none ids
      firstToolTip :=
        match ids.head? with
        | some i0 => if hiddenOf env i0 then none else some (.tooltip (some i0) v h)
        | none => none }

lemma applyPlan_append (s : SState) (a b : List PInsert) :
    applyPlan s (a ++ b) = applyPlan (applyPlan s a) b := by
  simp [applyPlan, List.foldl_append]

lemma applyPlan_fields (ps : List PInsert) : ∀ s : SState,
    applyPlan s ps =
      { s with
        popovers := s.popovers ++ ps.map toPopover
        scrollEventListeners :=
          s.scrollEventListeners ++ List.range' s.nextCallbackId ps.length
        winScrollListeners :=
          s.winScrollListeners ++ List.range' s.nextCallbackId ps.length
        nextCallbackId := s.nextCallbackId + ps.length } := by
  induction ps with
  | nil => intro s; simp [applyPlan]
  | cons p rest ih =>
    intro s
    show applyPlan (applyInsert s p) rest = _
    rw [ih]
    have hr : List.range' s.nextCallbackId (p :: rest).length
        = s.nextCallbackId :: List.range' (s.nextCallbackId + 1) rest.length := by
      rw [List.length_cons, List.range'_succ]
    cases p with
    | overlayIns i =>
      simp only [applyInsert, insertOverlay, addEventListerOnScroll, addOverlayModule]
      rw [hr]
      simp [List.append_assoc]
      exact ⟨rfl, by omega⟩
    | tooltipIns f v h =>
      simp only [applyInsert, insertTooltip, addEventListerOnScroll, addTooltipModule]
      rw [hr]
      simp [List.append_assoc]
      exact ⟨rfl, by omega⟩

lemma overlayFold_eq (ids : List Nat) : ∀ s : SState,
    ids.foldl (fun st i => insertOverlay st i) s
      = applyPlan s (ids.map PInsert.overlayIns) := by
  induction ids with
  | nil => intro s; rfl
  | cons i rest ih =>
    intro s
    show rest.foldl (fun st j => insertOverlay st j) (insertOverlay s i) = _
    rw [ih (insertOverlay s i)]
    rfl

lemma overlayFoldFiltered_eq (env : Env) (ids : List Nat) : ∀ s : SState,
    ids.foldl (fun st i => if hiddenOf env i then st else insertOverlay st i) s
      = applyPlan s ((ids.filter (fun i => !(hiddenOf env i))).map PInsert.overlayIns) := by
  induction ids with
  | nil => intro s; rfl
  | cons i rest ih =>
    intro s
    show rest.foldl (fun st j => if hiddenOf env j then st else insertOverlay st j)
        (if hiddenOf env i then s else insertOverlay s i) = _
    by_cases hi : hiddenOf env i = true
    · rw [if_pos hi, ih s, List.filter_cons]
      simp [hi]
    · rw [if_neg hi, ih (insertOverlay s i), List.filter_cons]
      simp only [Bool.not_eq_true] at hi
      simp [hi]
      rfl

lemma mixedTooltipLoop_tail (env : Env) (v h : Nat) (ids : List Nat) :
    ∀ (s : SState) (pe : PopoverElement) (idx : Nat),
      mixedTooltipLoop env v h s pe (idx + 1) ids =
        (applyPlan s ((ids.filter (fun i => !(hiddenOf env i))).map
            (fun i => PInsert.tooltipIns (some i) v h)),
         { frameWithTooltip := lastNonHiddenFrom env pe.frameWithTooltip ids
           firstToolTip := pe.firstToolTip }) := by
  induction ids with
  | nil => intro s pe idx; rfl
  | cons i rest ih =>
    intro s pe idx
    rw [mixedTooltipLoop]
    by_cases hi : hiddenOf env i = true
    · rw [if_pos hi, ih s pe (idx + 1), List.filter_cons]
      simp only [hi, Bool.not_true, Bool.false_eq_true, if_false, ite_false]
      have hl : lastNonHiddenFrom env pe.frameWithTooltip (i :: rest)
          = lastNonHiddenFrom env pe.frameWithTooltip rest := by
        unfold lastNonHiddenFrom
        rw [List.foldl_cons, if_pos hi]
      rw [hl]
    · rw [if_neg hi]
      have hidx : ¬(idx + 1 = 0) := Nat.succ_ne_zero idx
      simp only [if_neg hidx]
      rw [ih ((insertTooltip s (some i) v h).1)
        { frameWithTooltip := some i, firstToolTip := pe.firstToolTip } (idx + 1)]
      rw [List.filter_cons]
      simp only [Bool.not_eq_true] at hi
      simp only [hi, Bool.not_false, if_true, ite_true]
      have hl : lastNonHiddenFrom env pe.frameWithTooltip (i :: rest)
          = lastNonHiddenFrom env (some i) rest := by
        unfold lastNonHiddenFrom
        rw [List.foldl_cons, if_neg (by simp [hi])]
      rw [hl]
      rfl

lemma condHandler_eq (env : Env) (ids : List Nat) (v h : Nat) (s : SState) :
    insertPopoversConditionHandler env s ids v h =
      (applyPlan s (planOf env s.hoveredFrame ids v h),
       peOf env s.hoveredFrame ids v h) := by
  unfold insertPopoversConditionHandler planOf peOf
  by_cases hh : h = 0
  · subst hh
    simp only [eq_self_iff_true, if_true, ite_true]
    rw [overlayFold_eq ids s, applyPlan_append]
    rfl
  · rw [if_neg hh, if_neg hh, if_neg hh]
    by_cases hv : v = 0
    · subst hv
      simp only [eq_self_iff_true, if_true, ite_true]
      cases hhead : ids.head? with
      | none => rfl
      | some f => rfl
    · rw [if_neg hv, if_neg hv, if_neg hv]
      dsimp only
      rw [overlayFoldFiltered_eq env ids s]
      cases ids with
      | nil => rfl
      | cons i rest =>
        rw [mixedTooltipLoop]
        by_cases hi : hiddenOf env i = true
        · rw [if_pos hi]
          have := mixedTooltipLoop_tail env v h rest
            (applyPlan s (((i :: rest).filter (fun j => !(hiddenOf env j))).map
              PInsert.overlayIns))
            { frameWithTooltip := none, firstToolTip := none } 0
          rw [this]
          rw [List.filter_cons]
          simp only [hi, Bool.not_true, Bool.false_eq_true, if_false, ite_false]
          rw [← applyPlan_append]
          have hl : lastNonHiddenFrom env none (i :: rest)
              = lastNonHiddenFrom env none rest := by
            unfold lastNonHiddenFrom
            rw [List.foldl_cons, if_pos hi]
          rw [hl]
          have hhead : (i :: rest).head? = some i := rfl
          rw [hhead]
          simp only [hi, if_true, ite_true]
        · rw [if_neg hi]
          have heq := mixedTooltipLoop_tail env v h rest
            ((insertTooltip (applyPlan s (((i :: rest).filter
                (fun j => !(hiddenOf env j))).map PInsert.overlayIns)) (some i) v h).1)
            { frameWithTooltip := some i
              firstToolTip := some (.tooltip (some i) v h) } 0
          refine heq.trans ?_
          rw [List.filter_cons]
          simp only [Bool.not_eq_true] at hi
          simp only [hi, Bool.not_false, if_true, ite_true]
          have hl : lastNonHiddenFrom env none (i :: rest)
              = lastNonHiddenFrom env (some i) rest := by
            unfold lastNonHiddenFrom
            rw [List.foldl_cons, if_neg (by simp [hi])]
          rw [hl]
          have hhead : (i :: rest).head? = some i := rfl
          rw [hhead]
          simp only [hi, Bool.false_eq_true, if_false, ite_false]
          rw [applyPlan_append]
          rfl

/-- The full plan of one `insertPopovers` run for a present, nonempty
selection: the unlocatable-target tooltip when no frame matches, else
the three-way case split's plan. -/
def planFull (env : Env) (hovered : Option Nat) (sel : String) : List PInsert :=
  let ids := findSelectedFrameElements env sel
  let fc := getFrameCount env ids
  if ids.length = 0 then [.tooltipIns none 0 0]
  else planOf env hovered ids fc.numberOfVisibleFrames fc.numberOfHiddenFrames

/-- Whether the auto-scroll guard fires for one `insertPopovers` run:
a primary tooltip was recorded, the page is not hovered, the *first*
matched frame has nonzero `clientWidth`, and the frame recorded as
`frameWithTooltip` is not fully visible. -/
def scrollFires (env : Env) (hovered : Option Nat) (hovering : Bool) (sel : String) :
    Bool :=
  let ids := findSelectedFrameElements env sel
  let fc := getFrameCount env ids
  if ids.length = 0 then false
  else
    let pe := peOf env hovered ids fc.numberOfVisibleFrames fc.numberOfHiddenFrames
    pe.firstToolTip.isSome && !hovering &&
      (clientWidthOf env (ids.headD 0) != 0) && !(visDefaultOpt env pe.frameWithTooltip)

lemma removeAllPopoversThis_closed (s : SState) :
    removeAllPopoversThis s =
      { s with popovers := [], scrollEventListeners := []
               winScrollListeners :=
                 s.winScrollListeners.filter
                   (fun j => !(s.scrollEventListeners.contains j)) } := by
  unfold removeAllPopoversThis removeAllPopoversModule
  dsimp only
  split
  · next hlen =>
    have h0 : s.scrollEventListeners = [] := List.length_eq_zero.mp hlen
    rw [h0]
    simp
  · rfl

lemma insertPopovers_closed (env : Env) (resp : ResponseType) (sel : String)
    (hsel : resp.selectedFrame = some sel) (hns : (sel == "") = false) (s : SState) :
    insertPopovers env s resp =
      { s with
        popovers := (planFull env s.hoveredFrame sel).map toPopover
        scrollEventListeners :=
          List.range' s.nextCallbackId (planFull env s.hoveredFrame sel).length
        winScrollListeners :=
          s.winScrollListeners.filter (fun j => !(s.scrollEventListeners.contains j))
            ++ List.range' s.nextCallbackId (planFull env s.hoveredFrame sel).length
        nextCallbackId := s.nextCallbackId + (planFull env s.hoveredFrame sel).length
        effects := s.effects ++ [Eff.discovery sel] ++
          (if scrollFires env s.hoveredFrame s.isHoveringOverPage sel
           then [Eff.autoScroll] else []) } := by
  unfold insertPopovers planFull scrollFires
  rw [hsel]
  simp only [strFalsy, hns, Bool.and_false, Bool.false_eq_true, if_false, ite_false]
  dsimp only [Option.getD]
  by_cases hz : (findSelectedFrameElements env sel).length = 0
  · have hnil : findSelectedFrameElements env sel = [] := List.length_eq_zero.mp hz
    rw [hnil]
    simp only [List.length_nil, eq_self_iff_true, if_true, ite_true]
    rw [removeAllPopoversThis_closed]
    dsimp only
    show applyPlan _ [PInsert.tooltipIns none 0 0] = _
    rw [applyPlan_fields]
    simp [List.range']
  · have hne : findSelectedFrameElements env sel ≠ [] := by
      intro hn
      rw [hn] at hz
      exact hz rfl
    obtain ⟨a, rest, hcons⟩ := List.exists_cons_of_ne_nil hne
    rw [hcons]
    have hnumne : ¬((getFrameCount env (a :: rest)).numberOfFrames = 0) := by
      simp [getFrameCount]
    have hlenne : ¬((a :: rest).length = 0) := by simp
    rw [removeAllPopoversThis_closed]
    dsimp only
    simp only [if_neg hnumne, if_neg hlenne, List.head?_cons]
    rw [condHandler_eq]
    dsimp only
    rw [applyPlan_fields]
    dsimp only
    by_cases hfire :
      ((peOf env s.hoveredFrame (a :: rest)
          (getFrameCount env (a :: rest)).numberOfVisibleFrames
          (getFrameCount env (a :: rest)).numberOfHiddenFrames).firstToolTip.isSome &&
        !s.isHoveringOverPage &&
        (clientWidthOf env a != 0) &&
        !(visDefaultOpt env
          (peOf env s.hoveredFrame (a :: rest)
            (getFrameCount env (a :: rest)).numberOfVisibleFrames
            (getFrameCount env (a :: rest)).numberOfHiddenFrames).frameWithTooltip)) = true
    · simp only [if_pos hfire]
      simp [List.append_assoc, hfire]
    · simp only [if_neg hfire]
      simp [List.append_assoc, hfire]

/-- Number of auto-scroll effects in a trace. -/
def countAutoScroll (es : List Eff) : Nat :=
  (es.filter (fun e => match e with | .autoScroll => true | .discovery _ => false)).length

@[simp] lemma countAutoScroll_append (a b : List Eff) :
    countAutoScroll (a ++ b) = countAutoScroll a + countAutoScroll b := by
  simp [countAutoScroll, List.filter_append]

/-- C5 counterexample: in the environment with frame 0 fully visible
(nonzero width), frame 1 hidden, and frame 2 non-hidden but scrolled out
of view, inserting popovers for `https://a.test` fires the auto-scroll
(one auto-scroll effect) even though the frame the primary tooltip is
attached to — frame 0, the first tooltip in the rendered set — is
already fully visible in the viewport, so the claim's fourth condition
fails; the code evaluates visibility on `frameWithTooltip` (the last
non-hidden match, frame 2) instead of the primary tooltip's anchor. -/
theorem C5_counterexample :
    countAutoScroll (insertPopovers envThree inspState
        ⟨true, some "https://a.test", false⟩).effects = 1 ∧
    (insertPopovers envThree inspState ⟨true, some "https://a.test", false⟩).popovers
      = [.overlay 0, .overlay 2, .tooltip (some 0) 1 1, .tooltip (some 2) 1 1] ∧
    (inspState.isHoveringOverPage = false ∧ clientWidthOf envThree 0 = 100 ∧
      visDefaultOf envThree 0 = true) :=
  ⟨rfl, rfl, rfl, rfl, rfl⟩

/-- C5 (amended): after a completed insertion for a present, nonempty
selection, auto-scroll fires iff all four of the following hold: the
case split recorded a primary tooltip, the page is not hovered, the
*first matched frame* has nonzero width, and the frame recorded as
`frameWithTooltip` (the chosen anchor in the all-visible case; the last
non-hidden match in the mixed case) is not fully visible in the
viewport. -/
theorem C5_amended_scroll_guard (env : Env) (s : SState) (resp : ResponseType)
    (sel : String)
    (hsel : resp.selectedFrame = some sel) (hns : (sel == "") = false)
    (hne : findSelectedFrameElements env sel ≠ []) :
    countAutoScroll (insertPopovers env s resp).effects =
      countAutoScroll s.effects +
        (if (peOf env s.hoveredFrame (findSelectedFrameElements env sel)
              (getFrameCount env (findSelectedFrameElements env sel)).numberOfVisibleFrames
              (getFrameCount env
                (findSelectedFrameElements env sel)).numberOfHiddenFrames).firstToolTip.isSome
              = true
            ∧ s.isHoveringOverPage = false
            ∧ clientWidthOf env ((findSelectedFrameElements env sel).headD 0) ≠ 0
            ∧ visDefaultOpt env (peOf env s.hoveredFrame (findSelectedFrameElements env sel)
                (getFrameCount env
                  (findSelectedFrameElements env sel)).numberOfVisibleFrames
                (getFrameCount env
                  (findSelectedFrameElements env sel)).numberOfHiddenFrames).frameWithTooltip
              = false
         then 1 else 0) := by
  rw [insertPopovers_closed env resp sel hsel hns s]
  dsimp only
  rw [countAutoScroll_append, countAutoScroll_append]
  unfold scrollFires
  obtain ⟨a, rest, hcons⟩ := List.exists_cons_of_ne_nil hne
  rw [hcons]
  have hlenne : ¬((a :: rest).length = 0) := by simp
  simp only [if_neg hlenne]
  by_cases hg :
    ((peOf env s.hoveredFrame (a :: rest)
        (getFrameCount env (a :: rest)).numberOfVisibleFrames
        (getFrameCount env (a :: rest)).numberOfHiddenFrames).firstToolTip.isSome &&
      !s.isHoveringOverPage &&
      (clientWidthOf env ((a :: rest).headD 0) != 0) &&
      !(visDefaultOpt env
        (peOf env s.hoveredFrame (a :: rest)
          (getFrameCount env (a :: rest)).numberOfVisibleFrames
          (getFrameCount env (a :: rest)).numberOfHiddenFrames).frameWithTooltip)) = true
  · rw [if_pos hg]
    simp only [Bool.and_eq_true, Bool.not_eq_true', bne_iff_ne, ne_eq] at hg
    obtain ⟨⟨⟨h1, h2⟩, h3⟩, h4⟩ := hg
    rw [if_pos ⟨h1, h2, h3, h4⟩]
    simp [countAutoScroll]
  · rw [if_neg hg]
    have hp : ¬((peOf env s.hoveredFrame (a :: rest)
          (getFrameCount env (a :: rest)).numberOfVisibleFrames
          (getFrameCount env (a :: rest)).numberOfHiddenFrames).firstToolTip.isSome = true
        ∧ s.isHoveringOverPage = false
        ∧ clientWidthOf env ((a :: rest).headD 0) ≠ 0
        ∧ visDefaultOpt env (peOf env s.hoveredFrame (a :: rest)
            (getFrameCount env (a :: rest)).numberOfVisibleFrames
            (getFrameCount env (a :: rest)).numberOfHiddenFrames).frameWithTooltip
          = false) := by
      intro hp
      apply hg
      obtain ⟨h1, h2, h3, h4⟩ := hp
      simp only [List.headD_cons] at h3
      simp [h1, h2, h3, h4, Bool.and_eq_true, Bool.not_eq_true', bne_iff_ne]
    rw [if_neg hp]
    simp [countAutoScroll]

/-- Witness for C5 (amended) at the concrete environment: the guard
holds there (anchor `frameWithTooltip` is frame 2, not fully visible),
so the trace gains one auto-scroll effect. -/
theorem C5_amended_witness :
    countAutoScroll (insertPopovers envThree inspState
        ⟨true, some "https://a.test", false⟩).effects =
      countAutoScroll inspState.effects +
        (if (peOf envThree inspState.hoveredFrame
              (findSelectedFrameElements envThree "https://a.test")
              (getFrameCount envThree
                (findSelectedFrameElements envThree "https://a.test")).numberOfVisibleFrames
              (getFrameCount envThree
                (findSelectedFrameElements envThree "https://a.test")).numberOfHiddenFrames).firstToolTip.isSome
              = true
            ∧ inspState.isHoveringOverPage = false
            ∧ clientWidthOf envThree
                ((findSelectedFrameElements envThree "https://a.test").headD 0) ≠ 0
            ∧ visDefaultOpt envThree (peOf envThree inspState.hoveredFrame
                (findSelectedFrameElements envThree "https://a.test")
                (getFrameCount envThree
                  (findSelectedFrameElements envThree "https://a.test")).numberOfVisibleFrames
                (getFrameCount envThree
                  (findSelectedFrameElements envThree "https://a.test")).numberOfHiddenFrames).frameWithTooltip
              = false
         then 1 else 0) :=
  C5_amended_scroll_guard envThree inspState ⟨true, some "https://a.test", false⟩
    "https://a.test" rfl rfl (by decide)

/-! ## Idempotence of a start-inspecting command (C8) -/

lemma removeEventListeners_closed (s : SState) :
    removeEventListeners s = { s with docListeners := [] } := by
  have hf : s.docListeners.filter (fun l => !(allDocListeners.contains l)) = [] := by
    rw [List.filter_eq_nil_iff]
    intro a _
    rw [contains_allDocListeners a]
    simp
  unfold removeEventListeners
  rw [hf]

lemma addEventListeners_fromNil (s : SState) (h : s.docListeners = []) :
    addEventListeners s = { s with docListeners := allDocListeners } := by
  unfold addEventListeners
  rw [h]
  rfl

/-- Running `onMessage` with a start-inspecting command is `insertPopovers` from
the prepared state: inspecting flag on, exactly the five document
listeners installed, frame highlighting on. -/
lemma onMessage_start (env : Env) (s : SState) (resp : ResponseType)
    (hin : resp.isInspecting = true) :
    onMessage env s resp =
      insertPopovers env
        { s with isInspecting := true, docListeners := allDocListeners
                 frameHighlighting := true } resp := by
  unfold onMessage
  rw [hin]
  simp only [eq_self_iff_true, if_true, ite_true]
  rw [removeEventListeners_closed, addEventListeners_fromNil _ rfl]
  rfl

/-- C8: processing the same start-inspecting command (with a present
selection) twice leaves the same rendered popover list and the same
document-listener bindings as processing it once — exactly the five
hover/visibility listeners, installed exactly once — and the same number
of registered scroll callbacks and window scroll listeners (the second
run drains its predecessor's callbacks before registering fresh ones).
The freshness hypothesis states that callback ids attached to the window
were drawn from the id counter. -/
theorem C8_idempotent (env : Env) (s : SState) (resp : ResponseType) (sel : String)
    (hin : resp.isInspecting = true)
    (hsel : resp.selectedFrame = some sel) (hns : (sel == "") = false)
    (hfresh : ∀ j ∈ s.winScrollListeners, j < s.nextCallbackId) :
    (onMessage env (onMessage env s resp) resp).popovers
      = (onMessage env s resp).popovers ∧
    (onMessage env (onMessage env s resp) resp).docListeners
      = (onMessage env s resp).docListeners ∧
    (onMessage env s resp).docListeners = allDocListeners ∧
    (onMessage env (onMessage env s resp) resp).scrollEventListeners.length
      = (onMessage env s resp).scrollEventListeners.length ∧
    (onMessage env (onMessage env s resp) resp).winScrollListeners.length
      = (onMessage env s resp).winScrollListeners.length := by
  rw [onMessage_start env s resp hin]
  rw [insertPopovers_closed env resp sel hsel hns]
  dsimp only
  rw [onMessage_start env _ resp hin]
  rw [insertPopovers_closed env resp sel hsel hns]
  dsimp only
  refine ⟨rfl, rfl, rfl, ?_, ?_⟩
  · simp [List.length_range']
  · have hbase :
        (s.winScrollListeners.filter (fun j => !(s.scrollEventListeners.contains j))
            ++ List.range' s.nextCallbackId
                (planFull env s.hoveredFrame sel).length).filter
          (fun j => !((List.range' s.nextCallbackId
              (planFull env s.hoveredFrame sel).length).contains j))
        = s.winScrollListeners.filter (fun j => !(s.scrollEventListeners.contains j)) := by
      rw [List.filter_append]
      have h1 : (s.winScrollListeners.filter
            (fun j => !(s.scrollEventListeners.contains j))).filter
          (fun j => !((List.range' s.nextCallbackId
              (planFull env s.hoveredFrame sel).length).contains j))
          = s.winScrollListeners.filter (fun j => !(s.scrollEventListeners.contains j)) := by
        rw [List.filter_eq_self]
        intro j hj
        have hjw : j ∈ s.winScrollListeners := (List.mem_filter.mp hj).1
        have hjlt : j < s.nextCallbackId := hfresh j hjw
        have : j ∉ List.range' s.nextCallbackId (planFull env s.hoveredFrame sel).length := by
          intro hmem
          have := (List.mem_range'_1.mp hmem).1
          omega
        simp [List.contains, List.elem_eq_mem, this]
      have h2 : ((List.range' s.nextCallbackId
            (planFull env s.hoveredFrame sel).length).filter
          (fun j => !((List.range' s.nextCallbackId
              (planFull env s.hoveredFrame sel).length).contains j))) = [] := by
        rw [List.filter_eq_nil_iff]
        intro j hj
        simp [List.contains, List.elem_eq_mem, hj]
      rw [h1, h2, List.append_nil]
    rw [hbase]
    simp [List.length_range']

/-- Fresh start state for the C8 witness. -/
theorem C8_witness :
    (onMessage envThree (onMessage envThree regState
        ⟨true, some "https://a.test", false⟩) ⟨true, some "https://a.test", false⟩).popovers
      = (onMessage envThree regState ⟨true, some "https://a.test", false⟩).popovers ∧
    (onMessage envThree (onMessage envThree regState
        ⟨true, some "https://a.test", false⟩) ⟨true, some "https://a.test", false⟩).docListeners
      = (onMessage envThree regState ⟨true, some "https://a.test", false⟩).docListeners ∧
    (onMessage envThree regState ⟨true, some "https://a.test", false⟩).docListeners
      = allDocListeners ∧
    (onMessage envThree (onMessage envThree regState
        ⟨true, some "https://a.test", false⟩)
        ⟨true, some "https://a.test", false⟩).scrollEventListeners.length
      = (onMessage envThree regState
          ⟨true, some "https://a.test", false⟩).scrollEventListeners.length ∧
    (onMessage envThree (onMessage envThree regState
        ⟨true, some "https://a.test", false⟩)
        ⟨true, some "https://a.test", false⟩).winScrollListeners.length
      = (onMessage envThree regState
          ⟨true, some "https://a.test", false⟩).winScrollListeners.length :=
  C8_idempotent envThree regState ⟨true, some "https://a.test", false⟩ "https://a.test"
    rfl rfl rfl (by decide)

end PSAT

